import Mathlib

/-!
Shallow embedding of `daemon/src/win/win_console.cpp` (pia-desktop): the
Windows console/service entry point.  External collaborators (service-control
backend, TAP/callout driver install primitives, the WinTUN module, the
`piactl` notifier) are represented by an environment `Backend` recording the
result each of them would return; operations additionally produce a trace of
the external calls they perform, so that claims about which backend operation
is (or is not) invoked can be stated.
-/

namespace Pia

/-- Modelled from the Windows SDK (`winerror.h`, not part of this repository):
`ERROR_SERVICE_EXISTS`. -/
def ERROR_SERVICE_EXISTS : Nat := 1073

/-- Modelled from the Windows SDK: `ERROR_SERVICE_DOES_NOT_EXIST`. -/
def ERROR_SERVICE_DOES_NOT_EXIST : Nat := 1060

/-- Modelled from the Windows SDK: `ERROR_SERVICE_ALREADY_RUNNING`. -/
def ERROR_SERVICE_ALREADY_RUNNING : Nat := 1056

/-- Modelled from the Windows SDK: `ERROR_SERVICE_NOT_ACTIVE`. -/
def ERROR_SERVICE_NOT_ACTIVE : Nat := 1062

/-- Modelled from the Windows SDK: `ERROR_SERVICE_MARKED_FOR_DELETE`. -/
def ERROR_SERVICE_MARKED_FOR_DELETE : Nat := 1072

/-- Modelled from the Windows SDK (`setupapi.h`):
`ERROR_AUTHENTICODE_TRUST_NOT_ESTABLISHED`. -/
def ERROR_AUTHENTICODE_TRUST_NOT_ESTABLISHED : Nat := 0xE0000244

/-- Modelled from the Windows SDK (`setupapi.h`):
`ERROR_AUTHENTICODE_PUBLISHER_NOT_TRUSTED`. -/
def ERROR_AUTHENTICODE_PUBLISHER_NOT_TRUSTED : Nat := 0xE0000245

/-- Modelled from the spec: the `DriverStatus` enumeration (declared in
`extras/installer/win/tap_inl.h`, which is not among the provided sources)
with members `DriverInstalled`, `DriverInstalledReboot`, `DriverInstallFailed`,
`DriverUninstalled`, `DriverUninstalledReboot`, `DriverUninstallFailed`.
The claims only depend on the members being pairwise distinct integer codes,
so they are assigned consecutive values here. -/
def DriverStatus.DriverInstalled : Int := 0

/-- Modelled from the spec: `DriverStatus::DriverInstalledReboot`. -/
def DriverStatus.DriverInstalledReboot : Int := 1

/-- Modelled from the spec: `DriverStatus::DriverInstallFailed`. -/
def DriverStatus.DriverInstallFailed : Int := 2

/-- Modelled from the spec: `DriverStatus::DriverUninstalled`. -/
def DriverStatus.DriverUninstalled : Int := 3

/-- Modelled from the spec: `DriverStatus::DriverUninstalledReboot`. -/
def DriverStatus.DriverUninstalledReboot : Int := 4

/-- Modelled from the spec: `DriverStatus::DriverUninstallFailed`. -/
def DriverStatus.DriverUninstallFailed : Int := 5

/-- A domain error thrown by a backend operation, carrying the OS system
error code exposed by `Error::systemCode()` in the source. -/
structure Error where
  systemCode : Nat
deriving DecidableEq

deriving instance DecidableEq for Except

/-- One external call performed during dispatch: the backend and controller
operations reachable from `WinConsole::run`.  `tapInstall` records the force
flag passed to `::installTapDriver`; `tapUninstall` records the first boolean
argument passed to `::uninstallTapDriver` (`true` at the direct `tap
uninstall` call site, `false` inside `reinstallTapDriver`). -/
inductive Call where
  | showHelp
  | runDaemon
  | svcInstall
  | svcUninstall
  | svcStart
  | svcStop
  | tapInstall (force : Bool)
  | tapUninstall (arg1 : Bool)
  | wintunDelete
  | wintunRecreate
  | calloutInstall
  | calloutUninstall
  | checkDriverHint
deriving DecidableEq

/-- Console output emitted during dispatch: the help text from `showHelp`,
and the two lines emitted by the `unrecognizedCommand` lambda (the offending
tokens `args.mid(1)` on the diagnostic stream and the usage hint on stdout). -/
inductive ConsoleOutput where
  | helpText
  | unrecognizedTokens (tokens : List String)
  | usageHint
deriving DecidableEq

/-- Environment for the external collaborators: the result each backend
operation would produce if invoked.  Fallible operations that may throw a
domain `Error` are `Except Error Int`; the WinTUN module calls report success
as a `Bool` (`deleteDriver` result, and whether `recreateAdapter` returned a
valid adapter); `notifierOk` is the (ignored) result of the `Exec::cmd`
invocation of the control client in `sendCheckDriverHint`. -/
structure Backend where
  installTapResult : Except Error Int
  uninstallTapResult : Except Error Int
  wintunDeleteOk : Bool
  wintunAdapterOk : Bool
  installCalloutResult : Except Error Int
  uninstallCalloutResult : Except Error Int
  installServiceResult : Except Error Int
  uninstallServiceResult : Except Error Int
  startServiceResult : Except Error Int
  stopServiceResult : Except Error Int
  notifierOk : Bool
deriving DecidableEq

/-- Result of `WinConsole::run`: the process exit code, the external calls
performed, and the console output emitted. -/
structure RunResult where
  exit : Int
  calls : List Call
  outputs : List ConsoleOutput
deriving DecidableEq

/-- Token `i` of the argument vector (`args.at(i)` is only evaluated by the
source under a bounds guard, so a default covers the unreachable case). -/
def argAt (args : List String) (i : Nat) : String := args.getD i ""

/-- ASCII case folding of a string to a character list (the effect of
`Qt::CaseInsensitive` comparison on the ASCII command tokens involved). -/
def lowered (s : String) : List Char := s.data.map Char.toLower

/-- The `MATCH_ARG` macro: case-insensitive exact comparison of a token
against a fixed text (`QString::compare` with `Qt::CaseInsensitive` = 0). -/
def matchArg (s t : String) : Bool := lowered s == lowered t

/-- The `Command` selected by the argument vector (spec section 3). -/
inductive Command where
  | Help
  | Run
  | InstallService
  | UninstallService
  | StartService
  | StopService
  | TapInstall
  | TapUninstall
  | TapReinstall
  | TunUninstall
  | TunCreate
  | CalloutInstall
  | CalloutUninstall
  | CalloutReinstall
  | Unrecognized
deriving DecidableEq

/-- Command selection, mirroring the `if`/`else if` chain of
`WinConsole::run` (win_console.cpp lines 175-237): `args.count() > 1` guards
the whole chain (otherwise `showHelp` runs); token 1 selects the primary
command; for `tap`/`tun`/`callout` the branch is entered only when
`args.count() > 2`, and token 2 selects the sub-action; every unmatched case
falls through to `unrecognizedCommand`. -/
def parseCommand (args : List String) : Command :=
  if 1 < args.length then
    if matchArg (argAt args 1) "help" || matchArg (argAt args 1) "/?" then Command.Help
    else if matchArg (argAt args 1) "run" then Command.Run
    else if matchArg (argAt args 1) "install" then Command.InstallService
    else if matchArg (argAt args 1) "uninstall" then Command.UninstallService
    else if matchArg (argAt args 1) "start" then Command.StartService
    else if matchArg (argAt args 1) "stop" then Command.StopService
    else if matchArg (argAt args 1) "tap" && 2 < args.length then
      if matchArg (argAt args 2) "install" then Command.TapInstall
      else if matchArg (argAt args 2) "uninstall" then Command.TapUninstall
      else if matchArg (argAt args 2) "reinstall" then Command.TapReinstall
      else Command.Unrecognized
    else if matchArg (argAt args 1) "tun" && 2 < args.length then
      if matchArg (argAt args 2) "uninstall" then Command.TunUninstall
      else if matchArg (argAt args 2) "create" then Command.TunCreate
      else Command.Unrecognized
    else if matchArg (argAt args 1) "callout" && 2 < args.length then
      if matchArg (argAt args 2) "install" then Command.CalloutInstall
      else if matchArg (argAt args 2) "uninstall" then Command.CalloutUninstall
      else if matchArg (argAt args 2) "reinstall" then Command.CalloutReinstall
      else Command.Unrecognized
    else Command.Unrecognized
  else Command.Help

/-- `WinConsole::reinstallTapDriver` (lines 90-94): `::uninstallTapDriver`
first with `(false, false)`, its return value discarded, then
`::installTapDriver` with force = `true`, whose result is returned.  A thrown
error from a phase propagates. -/
def WinConsole.reinstallTapDriver (b : Backend) : Except Error Int × List Call :=
  match b.uninstallTapResult with
  | Except.error e => (Except.error e, [Call.tapUninstall false])
  | Except.ok _ => (b.installTapResult, [Call.tapUninstall false, Call.tapInstall true])

/-- `WinConsole::uninstallWintunDriver` (lines 96-114): the three
reboot-required flags are local variables initialized to false and never
written before being tested; `deleteDriver` failure yields
`DriverUninstallFailed`, otherwise `DriverUninstalled`. -/
def WinConsole.uninstallWintunDriver (b : Backend) : Int :=
  let rebootRequiredWireGuard := false
  let rebootRequiredOpenVPN := false
  let rebootRequiredUninstall := false
  if ! b.wintunDeleteOk then DriverStatus.DriverUninstallFailed
  else if rebootRequiredWireGuard || rebootRequiredOpenVPN || rebootRequiredUninstall then
    DriverStatus.DriverUninstalledReboot
  else DriverStatus.DriverUninstalled

/-- `WinConsole::createWintunAdapter` (lines 116-128): the reboot-required
flag is a local variable initialized to false and never written; a null
adapter from `recreateAdapter` yields `DriverInstallFailed`, otherwise
`DriverInstalled`. -/
def WinConsole.createWintunAdapter (b : Backend) : Int :=
  let rebootRequired := false
  if ! b.wintunAdapterOk then DriverStatus.DriverInstallFailed
  else if rebootRequired then DriverStatus.DriverInstalledReboot
  else DriverStatus.DriverInstalled

/-- `WinConsole::reinstallCalloutDriver` (lines 140-152): uninstall first; if
its result equals `DriverUninstalledReboot`, return it without attempting the
install phase; otherwise return the install phase's result.  A thrown error
propagates. -/
def WinConsole.reinstallCalloutDriver (b : Backend) : Except Error Int × List Call :=
  match b.uninstallCalloutResult with
  | Except.error e => (Except.error e, [Call.calloutUninstall])
  | Except.ok uninstallResult =>
    if uninstallResult = DriverStatus.DriverUninstalledReboot then
      (Except.ok uninstallResult, [Call.calloutUninstall])
    else
      (b.installCalloutResult, [Call.calloutUninstall, Call.calloutInstall])

/-- The `catch` clause of `WinConsole::run` (lines 240-257): map a caught
domain error's system code onto the exit-code buckets. -/
def exitCodeForError (code : Nat) : Int :=
  if code = ERROR_SERVICE_EXISTS ∨ code = ERROR_SERVICE_DOES_NOT_EXIST ∨
     code = ERROR_SERVICE_ALREADY_RUNNING ∨ code = ERROR_SERVICE_NOT_ACTIVE then 2
  else if code = ERROR_SERVICE_MARKED_FOR_DELETE ∨
     code = ERROR_AUTHENTICODE_PUBLISHER_NOT_TRUSTED ∨
     code = ERROR_AUTHENTICODE_TRUST_NOT_ESTABLISHED then 3
  else 1

/-- The `callout` group epilogue (lines 221-235): after a callout operation
returns a value, `sendCheckDriverHint` invokes the control client and the
value is returned; a thrown error propagates before the hint is sent. -/
def withHint (r : Except Error Int) (cs : List Call) : Except Error Int × List Call :=
  match r with
  | Except.ok v => (Except.ok v, cs ++ [Call.checkDriverHint])
  | Except.error e => (Except.error e, cs)

/-- The body of each dispatch branch of `WinConsole::run`: the result (or
thrown error) and the external calls performed, as a function of the selected
`Command`.  `runDaemon` returns 0 unconditionally (line 273); `showHelp`
returns 0 (line 302); `unrecognizedCommand` returns 1 (line 162). -/
def dispatchCore (b : Backend) : Command → Except Error Int × List Call
  | Command.Help => (Except.ok 0, [Call.showHelp])
  | Command.Run => (Except.ok 0, [Call.runDaemon])
  | Command.InstallService => (b.installServiceResult, [Call.svcInstall])
  | Command.UninstallService => (b.uninstallServiceResult, [Call.svcUninstall])
  | Command.StartService => (b.startServiceResult, [Call.svcStart])
  | Command.StopService => (b.stopServiceResult, [Call.svcStop])
  | Command.TapInstall => (b.installTapResult, [Call.tapInstall false])
  | Command.TapUninstall => (b.uninstallTapResult, [Call.tapUninstall true])
  | Command.TapReinstall => WinConsole.reinstallTapDriver b
  | Command.TunUninstall => (Except.ok (WinConsole.uninstallWintunDriver b), [Call.wintunDelete])
  | Command.TunCreate => (Except.ok (WinConsole.createWintunAdapter b), [Call.wintunRecreate])
  | Command.CalloutInstall => withHint b.installCalloutResult [Call.calloutInstall]
  | Command.CalloutUninstall => withHint b.uninstallCalloutResult [Call.calloutUninstall]
  | Command.CalloutReinstall =>
    withHint (WinConsole.reinstallCalloutDriver b).1 (WinConsole.reinstallCalloutDriver b).2
  | Command.Unrecognized => (Except.ok 1, [])

/-- Console output of the selected branch: `showHelp` prints the usage table;
`unrecognizedCommand` prints the offending tokens (`args.mid(1)`) and a usage
hint; every other branch prints nothing observable here (logging aside). -/
def dispatchOutputs (cmd : Command) (args : List String) : List ConsoleOutput :=
  match cmd with
  | Command.Help => [ConsoleOutput.helpText]
  | Command.Unrecognized =>
    [ConsoleOutput.unrecognizedTokens (args.drop 1), ConsoleOutput.usageHint]
  | _ => []

/-- `WinConsole::run` (lines 154-263): select the command from the argument
vector, dispatch, and convert a caught domain error to an exit code via the
`catch` mapping; a normal completion's value is the exit code. -/
def WinConsole.run (b : Backend) (args : List String) : RunResult :=
  match (dispatchCore b (parseCommand args)).1 with
  | Except.ok code =>
    ⟨code, (dispatchCore b (parseCommand args)).2, dispatchOutputs (parseCommand args) args⟩
  | Except.error e =>
    ⟨exitCodeForError e.systemCode, (dispatchCore b (parseCommand args)).2,
      dispatchOutputs (parseCommand args) args⟩

/-- Modelled from the Windows SDK: `CTRL_C_EVENT`. -/
def CTRL_C_EVENT : Nat := 0

/-- Modelled from the Windows SDK: `CTRL_BREAK_EVENT`. -/
def CTRL_BREAK_EVENT : Nat := 1

/-- Modelled from the Windows SDK: `CTRL_CLOSE_EVENT`. -/
def CTRL_CLOSE_EVENT : Nat := 2

/-- Modelled from the Windows SDK: `CTRL_LOGOFF_EVENT`. -/
def CTRL_LOGOFF_EVENT : Nat := 5

/-- Modelled from the Windows SDK: `CTRL_SHUTDOWN_EVENT`. -/
def CTRL_SHUTDOWN_EVENT : Nat := 6

/-- Observable behavior of the console control handler: whether it requested
a daemon stop (`QMetaObject::invokeMethod(g_console, stopDaemon)`), and the
BOOL it returns to the OS. -/
structure CtrlHandlerResult where
  stopRequested : Bool
  handled : Bool
deriving DecidableEq

/-- `ctrlHandler` (lines 42-61): Ctrl-C and Ctrl-Break request a stop and
return TRUE; close, logoff and shutdown events request a stop and return
FALSE immediately; any other event returns FALSE without requesting a stop. -/
def ctrlHandler (dwCtrlType : Nat) : CtrlHandlerResult :=
  if dwCtrlType = CTRL_C_EVENT ∨ dwCtrlType = CTRL_BREAK_EVENT then ⟨true, true⟩
  else if dwCtrlType = CTRL_CLOSE_EVENT ∨ dwCtrlType = CTRL_LOGOFF_EVENT ∨
     dwCtrlType = CTRL_SHUTDOWN_EVENT then ⟨true, false⟩
  else ⟨false, false⟩

/-- Modelled from the spec: the daemon object (`WinDaemon`, whose class is
not among the provided sources).  Its stop entry point is, per the spec,
"idempotent request forwarded into the DaemonHandle's own stop entry point";
we model the handle as a flag recording that stop has been requested. -/
structure WinDaemon where
  stopRequested : Bool
deriving DecidableEq

/-- Modelled from the spec: the daemon's idempotent stop entry point. -/
def WinDaemon.stop (_ : WinDaemon) : WinDaemon := ⟨true⟩

/-- The `_daemon` member of `WinConsole`: a pointer assigned only by
`runDaemon` (line 267); before that assignment it does not point to a daemon
object, modelled as `none`. -/
structure WinConsoleState where
  daemon : Option WinDaemon
deriving DecidableEq

/-- The state of a freshly constructed `WinConsole`, before `runDaemon` has
assigned `_daemon`. -/
def initialConsoleState : WinConsoleState := ⟨none⟩

/-- `WinConsole::stopDaemon` (lines 276-279): unconditionally evaluates
`_daemon->stop()`.  When `_daemon` has not been assigned the dereference is
invalid, modelled as `none` (a fault); otherwise the daemon's stop entry
point runs. -/
def WinConsole.stopDaemon (s : WinConsoleState) : Option WinConsoleState :=
  match s.daemon with
  | none => none
  | some d => some ⟨some d.stop⟩

/-- `WinConsole::runDaemon` (lines 265-274): unconditionally constructs a new
`WinDaemon`, installs the console handler, starts the daemon, and returns 0.
The construction happens regardless of any earlier state. -/
def WinConsole.runDaemon (_ : WinConsoleState) : WinConsoleState × Int :=
  (⟨some ⟨false⟩⟩, 0)

/-- A backend on which every operation succeeds with result 0. -/
def okBackend : Backend :=
  ⟨Except.ok 0, Except.ok 0, true, true, Except.ok 0, Except.ok 0,
    Except.ok 0, Except.ok 0, Except.ok 0, Except.ok 0, true⟩

/-- A backend whose service-install operation throws a domain error carrying
`ERROR_SERVICE_EXISTS`. -/
def svcExistsBackend : Backend :=
  ⟨Except.ok 0, Except.ok 0, true, true, Except.ok 0, Except.ok 0,
    Except.error ⟨ERROR_SERVICE_EXISTS⟩, Except.ok 0, Except.ok 0, Except.ok 0, true⟩

/-- A backend whose callout uninstall reports `DriverUninstalledReboot`. -/
def calloutRebootBackend : Backend :=
  ⟨Except.ok 0, Except.ok 0, true, true, Except.ok 0,
    Except.ok DriverStatus.DriverUninstalledReboot,
    Except.ok 0, Except.ok 0, Except.ok 0, Except.ok 0, true⟩

/-- A backend whose callout uninstall reports `DriverUninstalled` and whose
callout install reports `DriverInstalled`. -/
def calloutOkBackend : Backend :=
  ⟨Except.ok 0, Except.ok 0, true, true,
    Except.ok DriverStatus.DriverInstalled,
    Except.ok DriverStatus.DriverUninstalled,
    Except.ok 0, Except.ok 0, Except.ok 0, Except.ok 0, true⟩

/-- Replace the notifier result of a backend, leaving every other field
unchanged (used to state that the notifier's outcome is ignored). -/
def setNotifier (b : Backend) (v : Bool) : Backend :=
  ⟨b.installTapResult, b.uninstallTapResult, b.wintunDeleteOk, b.wintunAdapterOk,
    b.installCalloutResult, b.uninstallCalloutResult, b.installServiceResult,
    b.uninstallServiceResult, b.startServiceResult, b.stopServiceResult, v⟩

/-- C1: a domain error caught at the dispatch boundary of `run` maps to exit
code 2 for the four service-state codes, 3 for service-marked-for-deletion
and the two Authenticode trust codes, and 1 for every other system code; a
dispatch that completes without an error returns its own value as the exit
code, bypassing the mapping. -/
theorem run_exit_code_mapping (b : Backend) (args : List String) :
    (∀ e cs, dispatchCore b (parseCommand args) = (Except.error e, cs) →
      (WinConsole.run b args).exit = exitCodeForError e.systemCode) ∧
    (∀ r cs, dispatchCore b (parseCommand args) = (Except.ok r, cs) →
      (WinConsole.run b args).exit = r) ∧
    (∀ c, c = ERROR_SERVICE_EXISTS ∨ c = ERROR_SERVICE_DOES_NOT_EXIST ∨
        c = ERROR_SERVICE_ALREADY_RUNNING ∨ c = ERROR_SERVICE_NOT_ACTIVE →
      exitCodeForError c = 2) ∧
    (∀ c, c = ERROR_SERVICE_MARKED_FOR_DELETE ∨
        c = ERROR_AUTHENTICODE_PUBLISHER_NOT_TRUSTED ∨
        c = ERROR_AUTHENTICODE_TRUST_NOT_ESTABLISHED →
      exitCodeForError c = 3) ∧
    (∀ c, ¬ (c = ERROR_SERVICE_EXISTS ∨ c = ERROR_SERVICE_DOES_NOT_EXIST ∨
        c = ERROR_SERVICE_ALREADY_RUNNING ∨ c = ERROR_SERVICE_NOT_ACTIVE ∨
        c = ERROR_SERVICE_MARKED_FOR_DELETE ∨
        c = ERROR_AUTHENTICODE_PUBLISHER_NOT_TRUSTED ∨
        c = ERROR_AUTHENTICODE_TRUST_NOT_ESTABLISHED) →
      exitCodeForError c = 1) := by
  refine ⟨?_, ?_, ?_, ?_, ?_⟩
  · intro e cs h
    simp [WinConsole.run, h]
  · intro r cs h
    simp [WinConsole.run, h]
  · intro c h
    rcases h with rfl | rfl | rfl | rfl <;> decide
  · intro c h
    rcases h with rfl | rfl | rfl <;> decide
  · intro c h
    push_neg at h
    obtain ⟨h1, h2, h3, h4, h5, h6, h7⟩ := h
    simp [exitCodeForError, h1, h2, h3, h4, h5, h6, h7]

/-- Witness for C1 at a concrete input: `install` with a backend throwing
`ERROR_SERVICE_EXISTS` exits with the mapped code. -/
theorem run_exit_code_mapping_witness :
    (WinConsole.run svcExistsBackend ["prog", "install"]).exit =
      exitCodeForError ERROR_SERVICE_EXISTS :=
  (run_exit_code_mapping svcExistsBackend ["prog", "install"]).1
    ⟨ERROR_SERVICE_EXISTS⟩ [Call.svcInstall] (by decide)

/-- C2: `reinstallCalloutDriver` returns `DriverUninstalledReboot` without
invoking the install phase when the uninstall phase yields that result, and
otherwise invokes the install phase and returns its result. -/
theorem reinstallCalloutDriver_spec (b : Backend) :
    (b.uninstallCalloutResult = Except.ok DriverStatus.DriverUninstalledReboot →
      WinConsole.reinstallCalloutDriver b =
        (Except.ok DriverStatus.DriverUninstalledReboot, [Call.calloutUninstall])) ∧
    (∀ u, b.uninstallCalloutResult = Except.ok u →
      u ≠ DriverStatus.DriverUninstalledReboot →
      WinConsole.reinstallCalloutDriver b =
        (b.installCalloutResult, [Call.calloutUninstall, Call.calloutInstall])) := by
  refine ⟨fun h => ?_, fun u h hne => ?_⟩
  · simp [WinConsole.reinstallCalloutDriver, h]
  · simp [WinConsole.reinstallCalloutDriver, h, hne]

/-- Witness for C2 at a concrete input: a reboot-required uninstall stops the
reinstall without an install call. -/
theorem reinstallCalloutDriver_spec_witness :
    WinConsole.reinstallCalloutDriver calloutRebootBackend =
      (Except.ok DriverStatus.DriverUninstalledReboot, [Call.calloutUninstall]) :=
  (reinstallCalloutDriver_spec calloutRebootBackend).1 (by decide)

/-- C3: when the argument vector selects a callout sub-command and the
operation returns a status, `run` performs the matching callout operation,
then the check-driver hint exactly once, and returns the status as the exit
code; the notifier's own result never changes the outcome of `run`. -/
theorem callout_group_notifies (b : Backend) (args : List String) :
    (parseCommand args = Command.CalloutInstall →
      ∀ r, b.installCalloutResult = Except.ok r →
      WinConsole.run b args = ⟨r, [Call.calloutInstall, Call.checkDriverHint], []⟩) ∧
    (parseCommand args = Command.CalloutUninstall →
      ∀ r, b.uninstallCalloutResult = Except.ok r →
      WinConsole.run b args = ⟨r, [Call.calloutUninstall, Call.checkDriverHint], []⟩) ∧
    (parseCommand args = Command.CalloutReinstall →
      ∀ u, b.uninstallCalloutResult = Except.ok u →
        (u = DriverStatus.DriverUninstalledReboot →
          WinConsole.run b args = ⟨u, [Call.calloutUninstall, Call.checkDriverHint], []⟩) ∧
        (u ≠ DriverStatus.DriverUninstalledReboot →
          ∀ r, b.installCalloutResult = Except.ok r →
            WinConsole.run b args =
              ⟨r, [Call.calloutUninstall, Call.calloutInstall, Call.checkDriverHint], []⟩)) ∧
    (∀ v, WinConsole.run (setNotifier b v) args = WinConsole.run b args) := by
  refine ⟨fun hp r hr => ?_, fun hp r hr => ?_,
    fun hp u hu => ⟨fun huv => ?_, fun hne r hr => ?_⟩, fun v => ?_⟩
  · simp [WinConsole.run, dispatchCore, dispatchOutputs, withHint, hp, hr]
  · simp [WinConsole.run, dispatchCore, dispatchOutputs, withHint, hp, hr]
  · subst huv
    simp [WinConsole.run, dispatchCore, dispatchOutputs, withHint,
      WinConsole.reinstallCalloutDriver, hp, hu]
  · simp [WinConsole.run, dispatchCore, dispatchOutputs, withHint,
      WinConsole.reinstallCalloutDriver, hp, hu, hne, hr]
  · cases b
    rfl

/-- Witness for C3 at a concrete input: `callout uninstall` with a non-reboot
success returns `DriverUninstalled` and sends the hint once. -/
theorem callout_group_notifies_witness :
    WinConsole.run calloutOkBackend ["prog", "callout", "uninstall"] =
      ⟨DriverStatus.DriverUninstalled, [Call.calloutUninstall, Call.checkDriverHint], []⟩ :=
  (callout_group_notifies calloutOkBackend ["prog", "callout", "uninstall"]).2.1
    (by decide) DriverStatus.DriverUninstalled (by decide)

/-- C4: an argument vector that selects no command (unknown token 1, or a
tap/tun/callout group with a missing or unmatched token 2) makes `run` invoke
no backend or controller operation, emit the offending tokens and a usage
hint, and return 1; such a vector necessarily has at least 2 tokens. -/
theorem unrecognized_command_spec (b : Backend) (args : List String)
    (h : parseCommand args = Command.Unrecognized) :
    WinConsole.run b args =
      ⟨1, [], [ConsoleOutput.unrecognizedTokens (args.drop 1), ConsoleOutput.usageHint]⟩ ∧
    1 < args.length := by
  constructor
  · simp [WinConsole.run, dispatchCore, dispatchOutputs, h]
  · by_contra hl
    simp [parseCommand, hl] at h

/-- Witness for C4 at a concrete input: an unknown top-level token. -/
theorem unrecognized_command_spec_witness :
    WinConsole.run okBackend ["prog", "bogus"] =
      ⟨1, [], [ConsoleOutput.unrecognizedTokens ["bogus"], ConsoleOutput.usageHint]⟩ :=
  (unrecognized_command_spec okBackend ["prog", "bogus"] (by decide)).1

/-- C5 counterexample: with fewer than 2 tokens `run` selects `Help`, not
`Unrecognized`, and exits 0, not 1, refuting the claim at `["prog"]`. -/
theorem run_short_argv_counterexample :
    (WinConsole.run okBackend ["prog"]).exit = 0 ∧
    ¬ (WinConsole.run okBackend ["prog"]).exit = 1 ∧
    parseCommand ["prog"] = Command.Help := by decide

/-- C5 (amended): for every argument vector with fewer than 2 tokens, `run`
behaves as `Help`: it shows the help text, returns exit code 0, and invokes
no backend operation. -/
theorem run_short_argv_help (b : Backend) (args : List String) (h : args.length < 2) :
    WinConsole.run b args = ⟨0, [Call.showHelp], [ConsoleOutput.helpText]⟩ ∧
    parseCommand args = Command.Help := by
  have hl : ¬ 1 < args.length := by omega
  constructor
  · simp [WinConsole.run, dispatchCore, dispatchOutputs, parseCommand, hl]
  · simp [parseCommand, hl]

/-- Witness for amended C5 at the empty argument vector. -/
theorem run_short_argv_help_witness :
    WinConsole.run okBackend [] = ⟨0, [Call.showHelp], [ConsoleOutput.helpText]⟩ ∧
    parseCommand [] = Command.Help :=
  run_short_argv_help okBackend [] (by decide)

/-- C6 counterexample: `stopDaemon` invoked before `runDaemon` has assigned
`_daemon` dereferences the unset pointer, a fault, refuting the claim that it
does not throw or fault in that state. -/
theorem stopDaemon_before_run_faults :
    WinConsole.stopDaemon initialConsoleState = none ∧
    initialConsoleState.daemon = none := by decide

/-- C6 (amended): once the daemon handle exists, `stopDaemon` forwards to the
daemon's idempotent stop entry point, so a second call in succession is a
no-op; and `runDaemon` unconditionally constructs and starts a fresh daemon,
returning 0, so no earlier stop request makes it skip startup. -/
theorem stopDaemon_idempotent_after_start (s : WinConsoleState) (d : WinDaemon)
    (h : s.daemon = some d) :
    WinConsole.stopDaemon s = some ⟨some ⟨true⟩⟩ ∧
    WinConsole.stopDaemon ⟨some ⟨true⟩⟩ = some ⟨some ⟨true⟩⟩ ∧
    (∀ t : WinConsoleState, (WinConsole.runDaemon t).1.daemon = some ⟨false⟩ ∧
      (WinConsole.runDaemon t).2 = 0) := by
  refine ⟨?_, by decide, fun t => ⟨rfl, rfl⟩⟩
  simp [WinConsole.stopDaemon, h, WinDaemon.stop]

/-- Witness for amended C6 at a concrete state with a live daemon. -/
theorem stopDaemon_idempotent_after_start_witness :
    WinConsole.stopDaemon ⟨some ⟨false⟩⟩ = some ⟨some ⟨true⟩⟩ :=
  (stopDaemon_idempotent_after_start ⟨some ⟨false⟩⟩ ⟨false⟩ (by decide)).1

/-- C7: `reinstallTapDriver` invokes the uninstall phase first, discards its
result whatever it is, then invokes the install phase with force = true, and
returns the install phase's raw result. -/
theorem reinstallTapDriver_spec (b : Backend) :
    ∀ u, b.uninstallTapResult = Except.ok u →
      WinConsole.reinstallTapDriver b =
        (b.installTapResult, [Call.tapUninstall false, Call.tapInstall true]) := by
  intro u h
  simp [WinConsole.reinstallTapDriver, h]

/-- Witness for C7 at a concrete input: a failing uninstall phase still leads
to the install phase. -/
theorem reinstallTapDriver_spec_witness :
    WinConsole.reinstallTapDriver okBackend =
      (okBackend.installTapResult, [Call.tapUninstall false, Call.tapInstall true]) :=
  reinstallTapDriver_spec okBackend 0 (by decide)

/-- C8: the console control handler requests a daemon stop and reports the
event handled on Ctrl-C/Ctrl-Break; requests a stop and immediately reports
not handled on close/logoff/shutdown; and on any other event reports not
handled without requesting a stop. -/
theorem ctrlHandler_spec (c : Nat) :
    (c = CTRL_C_EVENT ∨ c = CTRL_BREAK_EVENT → ctrlHandler c = ⟨true, true⟩) ∧
    (c = CTRL_CLOSE_EVENT ∨ c = CTRL_LOGOFF_EVENT ∨ c = CTRL_SHUTDOWN_EVENT →
      ctrlHandler c = ⟨true, false⟩) ∧
    (¬ (c = CTRL_C_EVENT ∨ c = CTRL_BREAK_EVENT) →
      ¬ (c = CTRL_CLOSE_EVENT ∨ c = CTRL_LOGOFF_EVENT ∨ c = CTRL_SHUTDOWN_EVENT) →
      ctrlHandler c = ⟨false, false⟩) := by
  refine ⟨fun h => ?_, fun h => ?_, fun h1 h2 => ?_⟩
  · rcases h with rfl | rfl <;> decide
  · rcases h with rfl | rfl | rfl <;> decide
  · simp [ctrlHandler, h1, h2]

/-- Witness for C8 at a concrete event: shutdown requests a stop and is
reported not handled. -/
theorem ctrlHandler_spec_witness : ctrlHandler CTRL_SHUTDOWN_EVENT = ⟨true, false⟩ :=
  (ctrlHandler_spec CTRL_SHUTDOWN_EVENT).2.1 (by decide)

/-- Command selection and the dispatched operation depend on the argument
vector only through the parsed `Command` (outputs may echo the raw tokens). -/
theorem run_congr_of_parse_eq (b : Backend) (a1 a2 : List String)
    (hp : parseCommand a1 = parseCommand a2) :
    (WinConsole.run b a1).exit = (WinConsole.run b a2).exit ∧
    (WinConsole.run b a1).calls = (WinConsole.run b a2).calls := by
  unfold WinConsole.run
  rw [hp]
  cases hd : (dispatchCore b (parseCommand a2)).1 <;> simp [hd]

/-- C9: command matching is case-insensitive: two argument vectors of equal
length whose tokens 1 and 2 agree up to letter case select the same `Command`
and dispatch the same operations with the same exit code; in particular
"RUN", "Run" and "run" all select `Run`. -/
theorem case_insensitive_matching (b : Backend) (args args2 : List String)
    (hlen : args.length = args2.length)
    (h1 : lowered (argAt args 1) = lowered (argAt args2 1))
    (h2 : lowered (argAt args 2) = lowered (argAt args2 2)) :
    parseCommand args = parseCommand args2 ∧
    (WinConsole.run b args).exit = (WinConsole.run b args2).exit ∧
    (WinConsole.run b args).calls = (WinConsole.run b args2).calls ∧
    parseCommand ["prog", "RUN"] = Command.Run ∧
    parseCommand ["prog", "Run"] = Command.Run ∧
    parseCommand ["prog", "run"] = Command.Run := by
  have hp : parseCommand args = parseCommand args2 := by
    unfold parseCommand matchArg
    rw [hlen, h1, h2]
  exact ⟨hp, (run_congr_of_parse_eq b args args2 hp).1,
    (run_congr_of_parse_eq b args args2 hp).2, by decide, by decide, by decide⟩

/-- Witness for C9 at concrete inputs: "TAP Install" parses like
"tap install". -/
theorem case_insensitive_matching_witness :
    parseCommand ["prog", "TAP", "Install"] = parseCommand ["prog", "tap", "install"] :=
  (case_insensitive_matching okBackend ["prog", "TAP", "Install"]
    ["prog", "tap", "install"] (by decide) (by decide) (by decide)).1

/-- C10: `uninstallWintunDriver` returns only `DriverUninstallFailed` (when
deletion fails) or `DriverUninstalled` (when it succeeds), and
`createWintunAdapter` returns only `DriverInstallFailed` or
`DriverInstalled`; neither ever returns a reboot-required status, since the
reboot flags they test are locals initialized to false and never written. -/
theorem wintun_ops_never_reboot (b : Backend) :
    (WinConsole.uninstallWintunDriver b =
      if b.wintunDeleteOk then DriverStatus.DriverUninstalled
      else DriverStatus.DriverUninstallFailed) ∧
    (WinConsole.createWintunAdapter b =
      if b.wintunAdapterOk then DriverStatus.DriverInstalled
      else DriverStatus.DriverInstallFailed) ∧
    WinConsole.uninstallWintunDriver b ≠ DriverStatus.DriverUninstalledReboot ∧
    WinConsole.createWintunAdapter b ≠ DriverStatus.DriverInstalledReboot := by
  cases hb : b.wintunDeleteOk <;> cases ha : b.wintunAdapterOk <;>
    refine ⟨?_, ?_, ?_, ?_⟩ <;>
      simp [WinConsole.uninstallWintunDriver, WinConsole.createWintunAdapter, hb, ha,
        DriverStatus.DriverUninstalled, DriverStatus.DriverUninstallFailed,
        DriverStatus.DriverUninstalledReboot, DriverStatus.DriverInstalled,
        DriverStatus.DriverInstallFailed, DriverStatus.DriverInstalledReboot]

end Pia
